import Mathlib

/-!
Verification of the Reacher API gateway (src/src/index.js) against its
natural-language specification.

The gateway is an Express pipeline.  We embed it shallowly:

* header maps are association lists `List (String × Option String)`, where the
  key is the lowercased header name (Node lowercases incoming header names)
  and a `none` value models a JS `undefined` stored in the header object;
* the JS expression `req.headers.authorization?.split(' ')[1]` is modelled
  by `splitSp` (the single-character split of JS, so `"".split(' ') = [""]`)
  followed by `sndField` (index `[1]`) and the JS truthiness test on the
  result (`undefined` and `""` are falsy);
* `jwt.verify(token, JWT_SECRET)` is modelled symbolically through a
  `JwtEnv`: every token string either decodes to a payload together with the
  unique secret it verifies under and an optional expiry (`jsonwebtoken`
  rejects a token iff the secret differs or `now >= exp`), or it is
  malformed and decoding fails;
* the ordered Express stack (cors, requestLogger, health route, the seven
  proxy mounts in registration order, the root route, the 404 handler) is
  the function `gateway`.  `cors()` and `requestLogger` never end a
  non-preflight request, so they do not appear in the outcome.  An Express
  mount `app.use(p, ...)` fires when the path equals `p` or starts with
  `p ++ "/"`; `app.get` fires on method GET and an exact path.
* `createProxyMiddleware` with `pathRewrite: {'^<p>': ''}` forwards the
  request with the leading occurrence of `p` removed from the path, the
  method and query string unchanged, and the (possibly augmented) header
  map.  When the upstream is unreachable the registered `onError` handler
  answers with the 503 envelope of index.js; the six protected mounts of
  index.js register no `onError` handler, which we record with the explicit
  outcome `proxyDefaultError` (the proxy library then applies its own
  default error handling, which is not a response produced by this
  repository).
-/

namespace ReacherGateway

/-- JSON values appearing in the bodies synthesized by the gateway. -/
inductive JVal where
  | jstr (s : String)
  | jbool (b : Bool)
  | jstrs (xs : List String)
deriving DecidableEq, Repr

/-- A synthesized JSON object body, as an ordered field list. -/
abbrev Body := List (String × JVal)

/-- `{ success: false, error: msg }` — the standard failure envelope. -/
def errBody (msg : String) : Body :=
  [("success", JVal.jbool false), ("error", JVal.jstr msg)]

/-- Body of `GET /api/health` (index.js line 76). -/
def healthBody (ts : String) : Body :=
  [("status", JVal.jstr "ok"), ("service", JVal.jstr "gateway"),
   ("timestamp", JVal.jstr ts)]

/-- Body of `GET /` (index.js line 148). -/
def rootBody : Body :=
  [("status", JVal.jstr "ok"), ("service", JVal.jstr "gateway"),
   ("routes", JVal.jstrs ["/api/health", "/api/auth", "/api/users", "/api/products"])]

/-- The seven upstream services of the SERVICES table (index.js lines 23-31). -/
inductive Service where
  | auth | user | product | provider | trust | message | notification
deriving DecidableEq, Repr

/-- The JWT payload fields the gateway reads (`decoded.userId`,
`decoded.email`); either may be absent from a decoded payload. -/
structure Claims where
  userId : Option String
  email : Option String
deriving DecidableEq, Repr

/-- A successfully parsed JWT: its payload, the unique secret it verifies
under, and its optional `exp` claim (epoch seconds). -/
structure DecodedJwt where
  claims : Claims
  signedWith : String
  exp : Option Nat
deriving DecidableEq, Repr

/-- Symbolic model of the token world: each token string either decodes or is
malformed.  `jwt.verify` is a pure function of this environment, the shared
secret and the clock. -/
structure JwtEnv where
  decode : String → Option DecodedJwt

/-- `jwt.verify(tok, secret)` at clock `now`: fails on a malformed token, on
a signature mismatch, and on an expired `exp` claim (jsonwebtoken treats the
token as expired iff `now >= exp`); otherwise yields the payload. -/
def jwtVerify (env : JwtEnv) (secret : String) (now : Nat) (tok : String) :
    Option Claims :=
  match env.decode tok with
  | none => none
  | some d =>
    if d.signedWith = secret then
      match d.exp with
      | none => some d.claims
      | some e => if now < e then some d.claims else none
    else none

/-- JS `str.split(' ')` on the character list of `str`: splits at every
space, keeping empty fields, and yields `[""]` on the empty string. -/
def splitSp : List Char → List (List Char)
  | [] => [[]]
  | c :: rest =>
    if c = ' ' then [] :: splitSp rest
    else
      match splitSp rest with
      | [] => [[c]]
      | f :: fs => (c :: f) :: fs

/-- JS indexing `arr[1]`: the second element if it exists. -/
def sndField : List (List Char) → Option (List Char)
  | _ :: x :: _ => some x
  | _ => none

/-- `v.split(' ')[1]` followed by the JS truthiness guard `if (!token)`:
yields the token only when the second space-separated field of the header
value exists and is non-empty. -/
def tokenOfVal (v : String) : Option String :=
  match sndField (splitSp v.toList) with
  | none => none
  | some [] => none
  | some cs => some (String.mk cs)

/-- `req.headers.authorization?.split(' ')[1]` with the truthiness guard:
an absent header short-circuits through the optional chaining. -/
def tokenOfHeader : Option String → Option String
  | none => none
  | some v => tokenOfVal v

/-- An inbound HTTP request as the gateway sees it: method, path (query
string separated off, as in Express `req.path`), header map, the
`req.user` context (absent until verifyToken attaches it) and an opaque
body. -/
structure Req where
  method : String
  path : String
  query : String
  headers : List (String × Option String)
  user : Option Claims
  body : Option String
deriving DecidableEq, Repr

/-- Header lookup: `none` when the name is absent, `some none` when it is
present holding JS `undefined`. -/
def getH : List (String × Option String) → String → Option (Option String)
  | [], _ => none
  | (k, v) :: rest, k' => if k = k' then some v else getH rest k'

/-- Header assignment `req.headers[k] = v`: overwrites the existing entry or
appends a new one. -/
def setH : List (String × Option String) → String → Option String →
    List (String × Option String)
  | [], k, v => [(k, v)]
  | (k0, v0) :: rest, k, v =>
    if k0 = k then (k, v) :: rest else (k0, v0) :: setH rest k v

/-- `req.headers.authorization` through optional chaining: an absent header
and a JS `undefined` value both read as no header. -/
def authHeaderOf (req : Req) : Option String :=
  match getH req.headers "authorization" with
  | some (some v) => some v
  | _ => none

/-- The token the middleware extracts from a request. -/
def tokenFromReq (req : Req) : Option String :=
  tokenOfHeader (authHeaderOf req)

/-- The three-way decision of the verifyToken middleware (index.js lines
53-65): no token, failed `jwt.verify`, or a decoded payload. -/
inductive VOutcome where
  | missing
  | invalid
  | valid (c : Claims)
deriving DecidableEq, Repr

/-- Classification of an Authorization header value by verifyToken. -/
def validationOutcome (env : JwtEnv) (secret : String) (now : Nat)
    (h : Option String) : VOutcome :=
  match tokenOfHeader h with
  | none => VOutcome.missing
  | some tok =>
    match jwtVerify env secret now tok with
    | none => VOutcome.invalid
    | some c => VOutcome.valid c

/-- The verifyToken middleware: responds 401 with no token, 403 when
`jwt.verify` throws, and otherwise attaches `req.user` and sets the
`x-user-id` and `x-user-email` headers from the decoded payload before
passing the request on (index.js lines 53-65). -/
def verifyToken (env : JwtEnv) (secret : String) (now : Nat) (req : Req) :
    Except (Nat × Body) Req :=
  match validationOutcome env secret now (authHeaderOf req) with
  | VOutcome.missing => Except.error (401, errBody "No token provided")
  | VOutcome.invalid => Except.error (403, errBody "Invalid or expired token")
  | VOutcome.valid c =>
    Except.ok { req with
      user := some c,
      headers := setH (setH req.headers "x-user-id" c.userId)
                      "x-user-email" c.email }

/-- A proxy mount: its path mount point, target service, whether verifyToken
runs first, and the message of its `onError` handler (`none` when index.js
registers no handler for that mount). -/
structure RouteEntry where
  pfx : String
  svc : Service
  requiresAuth : Bool
  unavailableMsg : Option String
deriving DecidableEq, Repr

/-- The proxy mounts of index.js in registration order (lines 79-144).
Only the `/api/auth` mount supplies an `onError` handler. -/
def routesIndexJs : List RouteEntry :=
  [ ⟨"/api/auth", Service.auth, false, some "Auth service unavailable"⟩,
    ⟨"/api/users", Service.user, true, none⟩,
    ⟨"/api/products", Service.product, true, none⟩,
    ⟨"/api/providers", Service.provider, true, none⟩,
    ⟨"/api/trust", Service.trust, true, none⟩,
    ⟨"/api/messages", Service.message, true, none⟩,
    ⟨"/api/notifications", Service.notification, true, none⟩ ]

/-- Boolean string-prefix test on the underlying character lists. -/
def strIsPrefix (p s : String) : Bool :=
  List.isPrefixOf p.toList s.toList

/-- Express mount matching for `app.use(p, ...)`: the path equals the mount
point or continues it after a `/` (matching is modelled case-sensitively). -/
def mountMatch (p path : String) : Bool :=
  path == p || strIsPrefix (p ++ "/") path

/-- First mount (in registration order) whose mount point matches the path. -/
def findRoute (path : String) : Option RouteEntry :=
  List.find? (fun r => mountMatch r.pfx path) routesIndexJs

/-- `pathRewrite: {'^<p>': ''}`: remove a leading occurrence of `p`. -/
def stripPfx (p path : String) : String :=
  if strIsPrefix p path then String.mk (List.drop p.toList.length path.toList)
  else path

/-- The request the proxy sends upstream. -/
structure FwdReq where
  method : String
  path : String
  query : String
  headers : List (String × Option String)
  body : Option String
deriving DecidableEq, Repr

/-- End result of handling one inbound request: a synthesized response, a
request forwarded to an upstream (whose response is then relayed), or the
proxy library falling back to its own default error handling because the
mount registered no `onError`. -/
inductive Outcome where
  | respond (status : Nat) (body : Body)
  | forwarded (svc : Service) (fr : FwdReq)
  | proxyDefaultError (svc : Service)
deriving DecidableEq, Repr

/-- Build the upstream request: prefix-stripped path, same method, query,
headers and body. -/
def mkForwarded (r : RouteEntry) (req : Req) : FwdReq :=
  { method := req.method, path := stripPfx r.pfx req.path,
    query := req.query, headers := req.headers, body := req.body }

/-- The proxy middleware of one mount: forward when the upstream is
reachable, otherwise run the `onError` handler (503 envelope) when one was
registered, and fall back to the proxy library default when not. -/
def proxyStep (up : Service → Bool) (r : RouteEntry) (req : Req) : Outcome :=
  if up r.svc then Outcome.forwarded r.svc (mkForwarded r req)
  else
    match r.unavailableMsg with
    | some msg => Outcome.respond 503 (errBody msg)
    | none => Outcome.proxyDefaultError r.svc

/-- One mounted route: verifyToken first when the route is protected, then
the proxy. -/
def handleRoute (env : JwtEnv) (secret : String) (now : Nat)
    (up : Service → Bool) (r : RouteEntry) (req : Req) : Outcome :=
  if r.requiresAuth then
    match verifyToken env secret now req with
    | Except.error sb => Outcome.respond sb.1 sb.2
    | Except.ok req2 => proxyStep up r req2
  else proxyStep up r req

/-- The whole Express stack of index.js in registration order: the health
route, the seven proxy mounts, the root route, the 404 handler.  `now` is
the clock used by `jwt.verify`, `nowIso` the timestamp string stamped into
the health body, `up` says which upstreams are reachable. -/
def gateway (env : JwtEnv) (secret : String) (now : Nat) (nowIso : String)
    (up : Service → Bool) (req : Req) : Outcome :=
  if req.method = "GET" ∧ req.path = "/api/health" then
    Outcome.respond 200 (healthBody nowIso)
  else
    match findRoute req.path with
    | some r => handleRoute env secret now up r req
    | none =>
      if req.method = "GET" ∧ req.path = "/" then Outcome.respond 200 rootBody
      else Outcome.respond 404 (errBody "Route not found")

/-! ## Helper lemmas -/

/-- Reading back the header just assigned yields the assigned value. -/
theorem getH_setH_same (hs : List (String × Option String)) (k : String)
    (v : Option String) : getH (setH hs k v) k = some v := by
  induction hs with
  | nil => simp [setH, getH]
  | cons p rest ih =>
    by_cases h : p.1 = k
    · simp [setH, getH, h]
    · simp [setH, getH, h, ih]

/-- Assigning one header leaves the others unchanged. -/
theorem getH_setH_ne (hs : List (String × Option String)) (k0 k : String)
    (v : Option String) (h : k0 ≠ k) : getH (setH hs k0 v) k = getH hs k := by
  induction hs with
  | nil => simp [setH, getH, h]
  | cons p rest ih =>
    by_cases h1 : p.1 = k0
    · simp [setH, getH, h1, h]
    · simp [setH, getH, h1, ih]

/-- Splitting a string whose first space sits after a space-free chunk `s`
yields `s` as the first field and the split of the rest. -/
theorem splitSp_append_space (s t : List Char) (h : ' ' ∉ s) :
    splitSp (s ++ ' ' :: t) = s :: splitSp t := by
  induction s with
  | nil => simp [splitSp]
  | cons c s' ih =>
    have hc : c ≠ ' ' := fun hc => h (hc ▸ List.mem_cons_self c s')
    have hs' : ' ' ∉ s' := fun hm => h (List.mem_cons_of_mem c hm)
    simp only [List.cons_append, splitSp, if_neg hc, List.append_eq]
    rw [ih hs']

/-- `strIsPrefix` agrees with list-level prefixes. -/
theorem strIsPrefix_iff (p s : String) :
    strIsPrefix p s = true ↔ p.toList <+: s.toList := by
  unfold strIsPrefix
  exact List.isPrefixOf_iff_prefix

/-- A matching mount point is a string prefix of the path. -/
theorem mountMatch_isPre (p path : String) (hm : mountMatch p path = true) :
    p.toList <+: path.toList := by
  unfold mountMatch at hm
  rcases Bool.or_eq_true_iff.mp hm with h | h
  · have : path = p := by exact eq_of_beq h
    subst this
    exact ⟨[], List.append_nil _⟩
  · have h2 : (p ++ "/").toList <+: path.toList := (strIsPrefix_iff _ _).mp h
    have h1 : p.toList <+: (p ++ "/").toList := by
      refine ⟨"/".toList, ?_⟩
      show p.toList ++ "/".data = (p ++ "/").data
      rw [String.data_append]
      rfl
    exact h1.trans h2

/-- Stripping a matching mount point splits the path as
`mount ++ remainder`. -/
theorem strip_append_of_mount (p path : String) (hm : mountMatch p path = true) :
    p ++ stripPfx p path = path := by
  obtain ⟨t, ht⟩ := mountMatch_isPre p path hm
  have hsp : strIsPrefix p path = true := (strIsPrefix_iff p path).mpr ⟨t, ht⟩
  unfold stripPfx
  rw [if_pos hsp]
  have hd : List.drop p.toList.length path.toList = t := by
    rw [← ht]
    exact List.drop_left _ _
  rw [hd]
  apply String.ext
  rw [String.data_append]
  exact ht

/-- The gateway delegates to `handleRoute` on the first matching mount. -/
theorem gateway_route_eq (env : JwtEnv) (secret : String) (now : Nat)
    (nowIso : String) (up : Service → Bool) (req : Req) (r : RouteEntry)
    (hr : findRoute req.path = some r) :
    gateway env secret now nowIso up req = handleRoute env secret now up r req := by
  unfold gateway
  by_cases hh : req.method = "GET" ∧ req.path = "/api/health"
  · exfalso
    have h0 : findRoute "/api/health" = none := by decide
    rw [hh.2] at hr
    rw [h0] at hr
    exact Option.noConfusion hr
  · rw [if_neg hh, hr]

/-- A protected mount runs verifyToken and short-circuits on its error. -/
theorem handleRoute_protected (env : JwtEnv) (secret : String) (now : Nat)
    (up : Service → Bool) (r : RouteEntry) (req : Req)
    (hp : r.requiresAuth = true) :
    handleRoute env secret now up r req =
      match verifyToken env secret now req with
      | Except.error sb => Outcome.respond sb.1 sb.2
      | Except.ok req2 => proxyStep up r req2 := by
  unfold handleRoute
  rw [hp]
  simp

/-- verifyToken with a missing-token classification answers 401. -/
theorem verifyToken_missing (env : JwtEnv) (secret : String) (now : Nat)
    (req : Req)
    (hv : validationOutcome env secret now (authHeaderOf req) = VOutcome.missing) :
    verifyToken env secret now req = Except.error (401, errBody "No token provided") := by
  unfold verifyToken
  rw [hv]

/-- verifyToken with a failed `jwt.verify` answers 403. -/
theorem verifyToken_invalid (env : JwtEnv) (secret : String) (now : Nat)
    (req : Req)
    (hv : validationOutcome env secret now (authHeaderOf req) = VOutcome.invalid) :
    verifyToken env secret now req = Except.error (403, errBody "Invalid or expired token") := by
  unfold verifyToken
  rw [hv]

/-- verifyToken with a decoded payload passes the augmented request on. -/
theorem verifyToken_valid (env : JwtEnv) (secret : String) (now : Nat)
    (req : Req) (c : Claims)
    (hv : validationOutcome env secret now (authHeaderOf req) = VOutcome.valid c) :
    verifyToken env secret now req =
      Except.ok { req with
        user := some c,
        headers := setH (setH req.headers "x-user-id" c.userId)
                        "x-user-email" c.email } := by
  unfold verifyToken
  rw [hv]

/-- verifyToken never alters the method, path, query or body of the request
it passes on. -/
theorem verifyToken_ok_fields (env : JwtEnv) (secret : String) (now : Nat)
    (req req2 : Req) (h : verifyToken env secret now req = Except.ok req2) :
    req2.method = req.method ∧ req2.path = req.path ∧ req2.query = req.query := by
  unfold verifyToken at h
  cases hv : validationOutcome env secret now (authHeaderOf req) with
  | missing => rw [hv] at h; exact Except.noConfusion h
  | invalid => rw [hv] at h; exact Except.noConfusion h
  | valid c =>
    rw [hv] at h
    have h2 := Except.ok.inj h
    rw [← h2]
    exact ⟨rfl, rfl, rfl⟩

/-- Anything a mount forwards went through `mkForwarded`: the service is the
mount target and the upstream path is the prefix-stripped inbound path. -/
theorem handleRoute_forwarded_inv (env : JwtEnv) (secret : String) (now : Nat)
    (up : Service → Bool) (r : RouteEntry) (req : Req) (svc : Service)
    (fr : FwdReq)
    (h : handleRoute env secret now up r req = Outcome.forwarded svc fr) :
    svc = r.svc ∧ fr.path = stripPfx r.pfx req.path ∧
      fr.method = req.method ∧ fr.query = req.query := by
  have step : ∀ req2 : Req, proxyStep up r req2 = Outcome.forwarded svc fr →
      svc = r.svc ∧ fr = mkForwarded r req2 := by
    intro req2 hstep
    unfold proxyStep at hstep
    cases hu : up r.svc with
    | false =>
      rw [hu] at hstep
      simp only [Bool.false_eq_true, if_false] at hstep
      cases hm : r.unavailableMsg with
      | none => rw [hm] at hstep; exact Outcome.noConfusion hstep
      | some msg => rw [hm] at hstep; exact Outcome.noConfusion hstep
    | true =>
      rw [hu] at hstep
      simp only [if_true] at hstep
      have h1 := (Outcome.forwarded.inj hstep).1
      have h2 := (Outcome.forwarded.inj hstep).2
      exact ⟨h1.symm, h2.symm⟩
  unfold handleRoute at h
  cases hb : r.requiresAuth with
  | false =>
    rw [hb] at h
    simp only [Bool.false_eq_true, if_false] at h
    obtain ⟨h1, h2⟩ := step req h
    exact ⟨h1, by rw [h2]; exact ⟨rfl, rfl, rfl⟩⟩
  | true =>
    rw [hb] at h
    simp only [if_true] at h
    cases hvt : verifyToken env secret now req with
    | error sb => rw [hvt] at h; exact Outcome.noConfusion h
    | ok req2 =>
      rw [hvt] at h
      obtain ⟨h1, h2⟩ := step req2 h
      obtain ⟨hm, hpth, hq⟩ := verifyToken_ok_fields env secret now req req2 hvt
      refine ⟨h1, ?_, ?_, ?_⟩
      · rw [h2]; show stripPfx r.pfx req2.path = stripPfx r.pfx req.path; rw [hpth]
      · rw [h2]; exact hm
      · rw [h2]; exact hq

/-- Appending after a space turns a space-free scheme word into the first
split field. -/
theorem toList_append_space (s t : String) :
    (s ++ " " ++ t).toList = s.toList ++ ' ' :: t.toList := by
  show ((s ++ " ") ++ t).data = s.data ++ ' ' :: t.data
  rw [String.data_append, String.data_append, List.append_assoc]
  rfl

/-- The extracted token does not depend on the (space-free) scheme word in
front of it. -/
theorem tokenOfVal_scheme (s1 s2 t : String) (h1 : ' ' ∉ s1.toList)
    (h2 : ' ' ∉ s2.toList) :
    tokenOfVal (s1 ++ " " ++ t) = tokenOfVal (s2 ++ " " ++ t) := by
  unfold tokenOfVal
  rw [toList_append_space, toList_append_space,
      splitSp_append_space _ _ h1, splitSp_append_space _ _ h2]
  cases hsp : splitSp t.toList with
  | nil => rfl
  | cons a l => rfl

/-- Concrete token environment used by the closed witness instances: `tokA`
verifies under a different secret, `tokB` is expired at any clock from 5 on,
`tokC` is valid until clock 100 with both identity claims, and `tokD` is
valid, never expires, but its payload lacks `userId`. -/
def demoEnv : JwtEnv :=
  ⟨fun s =>
    if s = "tokA" then some ⟨⟨some "u1", some "e1@x"⟩, "other-secret", none⟩
    else if s = "tokB" then some ⟨⟨some "u2", some "e2@x"⟩, "SECRET", some 5⟩
    else if s = "tokC" then some ⟨⟨some "u3", some "e3@x"⟩, "SECRET", some 100⟩
    else if s = "tokD" then some ⟨⟨none, some "e4@x"⟩, "SECRET", none⟩
    else none⟩

/-! ## Claims -/

/-- C1: a request to a protected route whose Authorization header is absent
or has no space-separated second field is answered 401 with
`{ success: false, error: "No token provided" }` and is never forwarded to
any upstream. -/
theorem c1_missing_token_401 (env : JwtEnv) (secret : String) (now : Nat)
    (nowIso : String) (up : Service → Bool) (req : Req) (r : RouteEntry)
    (hr : findRoute req.path = some r) (hp : r.requiresAuth = true)
    (hauth : authHeaderOf req = none ∨
      ∃ v, authHeaderOf req = some v ∧ sndField (splitSp v.toList) = none) :
    gateway env secret now nowIso up req =
      Outcome.respond 401 (errBody "No token provided") ∧
    ∀ svc fr, gateway env secret now nowIso up req ≠ Outcome.forwarded svc fr := by
  have hv : validationOutcome env secret now (authHeaderOf req) = VOutcome.missing := by
    rcases hauth with h | ⟨v, h1, h2⟩
    · simp [validationOutcome, tokenOfHeader, h]
    · have h2' : sndField (splitSp v.data) = none := h2
      simp [validationOutcome, tokenOfHeader, tokenOfVal, h1, h2']
  have hmain : gateway env secret now nowIso up req =
      Outcome.respond 401 (errBody "No token provided") := by
    rw [gateway_route_eq env secret now nowIso up req r hr,
        handleRoute_protected env secret now up r req hp,
        verifyToken_missing env secret now req hv]
  refine ⟨hmain, ?_⟩
  intro svc fr hcon
  rw [hmain] at hcon
  exact Outcome.noConfusion hcon

/-- Closed instance of C1 on `GET /api/users` with no Authorization header. -/
theorem c1_missing_token_401_witness :
    gateway demoEnv "SECRET" 10 "2026-01-01T00:00:00Z" (fun _ => true)
      ⟨"GET", "/api/users", "", [], none, none⟩ =
    Outcome.respond 401 (errBody "No token provided") :=
  (c1_missing_token_401 demoEnv "SECRET" 10 "2026-01-01T00:00:00Z" (fun _ => true)
    ⟨"GET", "/api/users", "", [], none, none⟩
    ⟨"/api/users", Service.user, true, none⟩
    (by decide) (by decide) (Or.inl (by decide))).1

/-- C2: a wrong-secret token and an expired token are answered identically
on protected routes: both get status 403 with the same
`{ success: false, error: "Invalid or expired token" }` body, so the two
failure causes cannot be told apart from the response. -/
theorem c2_invalid_expired_indistinguishable (env : JwtEnv) (secret : String)
    (now1 now2 : Nat) (nowIso : String) (up : Service → Bool)
    (req1 req2 : Req) (r1 r2 : RouteEntry) (t1 t2 : String)
    (d1 d2 : DecodedJwt) (e : Nat)
    (hr1 : findRoute req1.path = some r1) (hp1 : r1.requiresAuth = true)
    (ht1 : tokenFromReq req1 = some t1)
    (hd1 : env.decode t1 = some d1) (hs1 : d1.signedWith ≠ secret)
    (hr2 : findRoute req2.path = some r2) (hp2 : r2.requiresAuth = true)
    (ht2 : tokenFromReq req2 = some t2)
    (hd2 : env.decode t2 = some d2) (hs2 : d2.signedWith = secret)
    (he : d2.exp = some e) (hee : e ≤ now2) :
    gateway env secret now1 nowIso up req1 =
      Outcome.respond 403 (errBody "Invalid or expired token") ∧
    gateway env secret now2 nowIso up req2 =
      Outcome.respond 403 (errBody "Invalid or expired token") ∧
    gateway env secret now1 nowIso up req1 = gateway env secret now2 nowIso up req2 := by
  have hj1 : jwtVerify env secret now1 t1 = none := by
    simp [jwtVerify, hd1, hs1]
  have hj2 : jwtVerify env secret now2 t2 = none := by
    have hlt : ¬ now2 < e := Nat.not_lt.mpr hee
    simp [jwtVerify, hd2, hs2, he, hlt]
  have hv1 : validationOutcome env secret now1 (authHeaderOf req1) = VOutcome.invalid := by
    have ht1' : tokenOfHeader (authHeaderOf req1) = some t1 := ht1
    simp [validationOutcome, ht1', hj1]
  have hv2 : validationOutcome env secret now2 (authHeaderOf req2) = VOutcome.invalid := by
    have ht2' : tokenOfHeader (authHeaderOf req2) = some t2 := ht2
    simp [validationOutcome, ht2', hj2]
  have g1 : gateway env secret now1 nowIso up req1 =
      Outcome.respond 403 (errBody "Invalid or expired token") := by
    rw [gateway_route_eq env secret now1 nowIso up req1 r1 hr1,
        handleRoute_protected env secret now1 up r1 req1 hp1,
        verifyToken_invalid env secret now1 req1 hv1]
  have g2 : gateway env secret now2 nowIso up req2 =
      Outcome.respond 403 (errBody "Invalid or expired token") := by
    rw [gateway_route_eq env secret now2 nowIso up req2 r2 hr2,
        handleRoute_protected env secret now2 up r2 req2 hp2,
        verifyToken_invalid env secret now2 req2 hv2]
  exact ⟨g1, g2, g1.trans g2.symm⟩

/-- Closed instance of C2: `tokA` is signed under a different secret, `tokB`
is expired at clock 10; the two responses coincide. -/
theorem c2_invalid_expired_indistinguishable_witness :
    gateway demoEnv "SECRET" 0 "ts" (fun _ => true)
      ⟨"GET", "/api/users/me", "", [("authorization", some "Bearer tokA")], none, none⟩ =
      Outcome.respond 403 (errBody "Invalid or expired token") ∧
    gateway demoEnv "SECRET" 10 "ts" (fun _ => true)
      ⟨"GET", "/api/products/1", "", [("authorization", some "Bearer tokB")], none, none⟩ =
      Outcome.respond 403 (errBody "Invalid or expired token") ∧
    gateway demoEnv "SECRET" 0 "ts" (fun _ => true)
      ⟨"GET", "/api/users/me", "", [("authorization", some "Bearer tokA")], none, none⟩ =
    gateway demoEnv "SECRET" 10 "ts" (fun _ => true)
      ⟨"GET", "/api/products/1", "", [("authorization", some "Bearer tokB")], none, none⟩ :=
  c2_invalid_expired_indistinguishable demoEnv "SECRET" 0 10 "ts" (fun _ => true)
    ⟨"GET", "/api/users/me", "", [("authorization", some "Bearer tokA")], none, none⟩
    ⟨"GET", "/api/products/1", "", [("authorization", some "Bearer tokB")], none, none⟩
    ⟨"/api/users", Service.user, true, none⟩
    ⟨"/api/products", Service.product, true, none⟩
    "tokA" "tokB"
    ⟨⟨some "u1", some "e1@x"⟩, "other-secret", none⟩
    ⟨⟨some "u2", some "e2@x"⟩, "SECRET", some 5⟩ 5
    (by decide) (by decide) (by decide) (by decide) (by decide)
    (by decide) (by decide) (by decide) (by decide) (by decide)
    (by decide) (by decide)

/-- C5: `GET /api/health` is answered 200 with the health body and is never
forwarded to an upstream, whatever the token situation and whichever
backends are down. -/
theorem c5_health_always_200 (env : JwtEnv) (secret : String) (now : Nat)
    (nowIso : String) (up : Service → Bool) (req : Req)
    (h1 : req.method = "GET") (h2 : req.path = "/api/health") :
    gateway env secret now nowIso up req = Outcome.respond 200 (healthBody nowIso) ∧
    ∀ svc fr, gateway env secret now nowIso up req ≠ Outcome.forwarded svc fr := by
  have hmain : gateway env secret now nowIso up req =
      Outcome.respond 200 (healthBody nowIso) := by
    unfold gateway
    rw [if_pos ⟨h1, h2⟩]
  refine ⟨hmain, ?_⟩
  intro svc fr hcon
  rw [hmain] at hcon
  exact Outcome.noConfusion hcon

/-- Closed instance of C5 with all upstreams down and no token. -/
theorem c5_health_always_200_witness :
    gateway demoEnv "SECRET" 10 "2026-01-01T00:00:00Z" (fun _ => false)
      ⟨"GET", "/api/health", "", [], none, none⟩ =
    Outcome.respond 200 (healthBody "2026-01-01T00:00:00Z") :=
  (c5_health_always_200 demoEnv "SECRET" 10 "2026-01-01T00:00:00Z" (fun _ => false)
    ⟨"GET", "/api/health", "", [], none, none⟩ rfl rfl).1

/-- When a protected mount forwards after a token decoded to `c`, the
forwarded header map is the inbound one with `x-user-id` and `x-user-email`
overwritten by the claim values. -/
theorem handleRoute_forwarded_headers (env : JwtEnv) (secret : String)
    (now : Nat) (up : Service → Bool) (r : RouteEntry) (req : Req)
    (c : Claims) (svc : Service) (fr : FwdReq)
    (hp : r.requiresAuth = true)
    (hv : validationOutcome env secret now (authHeaderOf req) = VOutcome.valid c)
    (h : handleRoute env secret now up r req = Outcome.forwarded svc fr) :
    fr.headers = setH (setH req.headers "x-user-id" c.userId)
                      "x-user-email" c.email := by
  rw [handleRoute_protected env secret now up r req hp,
      verifyToken_valid env secret now req c hv] at h
  have h2 : proxyStep up r { req with
      user := some c,
      headers := setH (setH req.headers "x-user-id" c.userId)
                      "x-user-email" c.email } = Outcome.forwarded svc fr := h
  unfold proxyStep at h2
  cases hu : up r.svc with
  | false =>
    rw [hu] at h2
    simp only [Bool.false_eq_true, if_false] at h2
    cases hm : r.unavailableMsg with
    | none => rw [hm] at h2; exact Outcome.noConfusion h2
    | some msg => rw [hm] at h2; exact Outcome.noConfusion h2
  | true =>
    rw [hu] at h2
    simp only [if_true] at h2
    have h3 := (Outcome.forwarded.inj h2).2
    rw [← h3]
    rfl

/-- C3: on a protected route with a valid token, the request that reaches
the upstream carries `x-user-id` and `x-user-email` equal to the decoded
`userId` and `email` claims; client-supplied values for those header names
never survive, since the middleware overwrites the slots. -/
theorem c3_identity_headers_from_claims (env : JwtEnv) (secret : String)
    (now : Nat) (nowIso : String) (up : Service → Bool) (req : Req)
    (r : RouteEntry) (tok : String) (c : Claims) (svc : Service) (fr : FwdReq)
    (hr : findRoute req.path = some r) (hp : r.requiresAuth = true)
    (ht : tokenFromReq req = some tok)
    (hj : jwtVerify env secret now tok = some c)
    (hfwd : gateway env secret now nowIso up req = Outcome.forwarded svc fr) :
    getH fr.headers "x-user-id" = some c.userId ∧
    getH fr.headers "x-user-email" = some c.email := by
  have hv : validationOutcome env secret now (authHeaderOf req) = VOutcome.valid c := by
    have ht' : tokenOfHeader (authHeaderOf req) = some tok := ht
    simp [validationOutcome, ht', hj]
  rw [gateway_route_eq env secret now nowIso up req r hr] at hfwd
  have hh := handleRoute_forwarded_headers env secret now up r req c svc fr hp hv hfwd
  rw [hh]
  constructor
  · rw [getH_setH_ne _ _ _ _ (by decide)]
    exact getH_setH_same _ _ _
  · exact getH_setH_same _ _ _

/-- Closed instance of C3: the client sends forged `x-user-id` and
`x-user-email` headers together with the valid `tokC`; the forwarded values
are the claim values. -/
theorem c3_identity_headers_from_claims_witness :
    getH [("authorization", some "Bearer tokC"), ("x-user-id", some "u3"),
          ("x-user-email", some "e3@x")] "x-user-id" = some (some "u3") ∧
    getH [("authorization", some "Bearer tokC"), ("x-user-id", some "u3"),
          ("x-user-email", some "e3@x")] "x-user-email" = some (some "e3@x") :=
  c3_identity_headers_from_claims demoEnv "SECRET" 10 "ts" (fun _ => true)
    ⟨"GET", "/api/users/me", "",
     [("authorization", some "Bearer tokC"), ("x-user-id", some "evil"),
      ("x-user-email", some "evil@x")], none, none⟩
    ⟨"/api/users", Service.user, true, none⟩ "tokC" ⟨some "u3", some "e3@x"⟩
    Service.user
    ⟨"GET", "/me", "",
     [("authorization", some "Bearer tokC"), ("x-user-id", some "u3"),
      ("x-user-email", some "e3@x")], none⟩
    (by decide) (by decide) (by decide) (by decide) (by decide)

/-- C4 counterexample: the protected mounts of index.js register no
`onError` handler, so with the user service unreachable a valid request to
`/api/users/me` is not answered with the named 503 envelope; the proxy
library default applies instead. -/
theorem c4_protected_503_counterexample :
    gateway demoEnv "SECRET" 10 "ts" (fun _ => false)
      ⟨"GET", "/api/users/me", "", [("authorization", some "Bearer tokC")], none, none⟩ =
      Outcome.proxyDefaultError Service.user ∧
    gateway demoEnv "SECRET" 10 "ts" (fun _ => false)
      ⟨"GET", "/api/users/me", "", [("authorization", some "Bearer tokC")], none, none⟩ ≠
      Outcome.respond 503 (errBody "User service unavailable") :=
  ⟨by decide, by decide⟩

/-- C4 (amended): when the resolved upstream is unreachable and the request
got past authentication, the mount with a registered `onError` handler (only
`/api/auth` in index.js) answers 503 with its
`{ success: false, error: "<Service> unavailable" }` envelope, while the
six protected mounts, having registered no handler, fall back to the proxy
library default instead of the named envelope. -/
theorem c4_unreachable_upstream_amended (env : JwtEnv) (secret : String)
    (now : Nat) (nowIso : String) (up : Service → Bool) (req : Req)
    (r : RouteEntry)
    (hr : findRoute req.path = some r)
    (hauth : r.requiresAuth = true →
      ∃ req2, verifyToken env secret now req = Except.ok req2)
    (hdown : up r.svc = false) :
    gateway env secret now nowIso up req =
      (match r.unavailableMsg with
       | some msg => Outcome.respond 503 (errBody msg)
       | none => Outcome.proxyDefaultError r.svc) := by
  rw [gateway_route_eq env secret now nowIso up req r hr]
  unfold handleRoute
  cases hb : r.requiresAuth with
  | false =>
    rw [if_neg Bool.false_ne_true]
    unfold proxyStep
    rw [hdown, if_neg Bool.false_ne_true]
  | true =>
    rw [if_pos rfl]
    obtain ⟨req2, hok⟩ := hauth hb
    rw [hok]
    show proxyStep up r req2 = _
    unfold proxyStep
    rw [hdown, if_neg Bool.false_ne_true]

/-- Closed instance of the amended C4 on the public auth route with its
upstream down. -/
theorem c4_unreachable_upstream_amended_witness :
    gateway demoEnv "SECRET" 0 "ts" (fun _ => false)
      ⟨"POST", "/api/auth/login", "", [], none, none⟩ =
    Outcome.respond 503 (errBody "Auth service unavailable") :=
  c4_unreachable_upstream_amended demoEnv "SECRET" 0 "ts" (fun _ => false)
    ⟨"POST", "/api/auth/login", "", [], none, none⟩
    ⟨"/api/auth", Service.auth, false, some "Auth service unavailable"⟩
    (by decide) (fun h => nomatch h) (by decide)

/-- C6 counterexample: `GET /` matches no route and is not `/api/health`,
yet index.js answers it 200 with a status/routes body (lines 147-149), not
with the 404 envelope. -/
theorem c6_root_counterexample :
    gateway demoEnv "SECRET" 0 "ts" (fun _ => true)
      ⟨"GET", "/", "", [], none, none⟩ = Outcome.respond 200 rootBody ∧
    gateway demoEnv "SECRET" 0 "ts" (fun _ => true)
      ⟨"GET", "/", "", [], none, none⟩ ≠
      Outcome.respond 404 (errBody "Route not found") :=
  ⟨by decide, by decide⟩

/-- C6 (amended): a request matching no mount, other than `GET /api/health`
and `GET /`, is answered 404 with
`{ success: false, error: "Route not found" }`; `GET /` instead gets the
200 status/routes body. -/
theorem c6_unmatched_404_amended (env : JwtEnv) (secret : String) (now : Nat)
    (nowIso : String) (up : Service → Bool) (req : Req)
    (hnf : findRoute req.path = none)
    (hh : ¬(req.method = "GET" ∧ req.path = "/api/health"))
    (hroot : ¬(req.method = "GET" ∧ req.path = "/")) :
    gateway env secret now nowIso up req =
      Outcome.respond 404 (errBody "Route not found") := by
  unfold gateway
  rw [if_neg hh, hnf]
  show (if req.method = "GET" ∧ req.path = "/" then Outcome.respond 200 rootBody
        else Outcome.respond 404 (errBody "Route not found")) = _
  rw [if_neg hroot]

/-- Closed instance of the amended C6 on `GET /api/does-not-exist`. -/
theorem c6_unmatched_404_amended_witness :
    gateway demoEnv "SECRET" 0 "ts" (fun _ => true)
      ⟨"GET", "/api/does-not-exist", "", [], none, none⟩ =
    Outcome.respond 404 (errBody "Route not found") :=
  c6_unmatched_404_amended demoEnv "SECRET" 0 "ts" (fun _ => true)
    ⟨"GET", "/api/does-not-exist", "", [], none, none⟩
    (by decide) (by decide) (by decide)

/-- C7: whatever the gateway forwards goes to the matched mount target, with
the upstream path equal to the inbound path minus the matched mount point
(the upstream never sees the routing prefix), and with method and query
string preserved. -/
theorem c7_path_rewrite (env : JwtEnv) (secret : String) (now : Nat)
    (nowIso : String) (up : Service → Bool) (req : Req) (r : RouteEntry)
    (svc : Service) (fr : FwdReq)
    (hr : findRoute req.path = some r)
    (hfwd : gateway env secret now nowIso up req = Outcome.forwarded svc fr) :
    svc = r.svc ∧ r.pfx ++ fr.path = req.path ∧
    fr.method = req.method ∧ fr.query = req.query := by
  rw [gateway_route_eq env secret now nowIso up req r hr] at hfwd
  obtain ⟨h1, h2, h3, h4⟩ :=
    handleRoute_forwarded_inv env secret now up r req svc fr hfwd
  have hr' : List.find? (fun r => mountMatch r.pfx req.path) routesIndexJs = some r := hr
  have hm0 := List.find?_some hr'
  have hm : mountMatch r.pfx req.path = true := hm0
  refine ⟨h1, ?_, h3, h4⟩
  rw [h2]
  exact strip_append_of_mount _ _ hm

/-- Closed instance of C7 on `POST /api/auth/login` with query `a=1`. -/
theorem c7_path_rewrite_witness :
    Service.auth = Service.auth ∧
    "/api/auth" ++ "/login" = "/api/auth/login" ∧
    "POST" = "POST" ∧ "a=1" = "a=1" :=
  c7_path_rewrite demoEnv "SECRET" 0 "ts" (fun _ => true)
    ⟨"POST", "/api/auth/login", "a=1", [], none, none⟩
    ⟨"/api/auth", Service.auth, false, some "Auth service unavailable"⟩
    Service.auth ⟨"POST", "/login", "a=1", [], none⟩
    (by decide) (by decide)

/-- C8 counterexample: `tokD` is correctly signed, never expires, and its
payload has no `userId` claim, yet the request passes validation and is
forwarded upstream (with `x-user-id` set to the undefined claim value). -/
theorem c8_missing_claim_counterexample :
    gateway demoEnv "SECRET" 10 "ts" (fun _ => true)
      ⟨"GET", "/api/users/me", "", [("authorization", some "Bearer tokD")], none, none⟩ =
      Outcome.forwarded Service.user
        ⟨"GET", "/me", "",
         [("authorization", some "Bearer tokD"), ("x-user-id", none),
          ("x-user-email", some "e4@x")], none⟩ := by
  decide

/-- C8 (amended): verifyToken succeeds for every correctly signed,
non-expired token regardless of which claims its payload carries; it
attaches the decoded payload as `req.user` and copies the (possibly absent)
`userId` and `email` fields into the identity headers.  The code never
checks that `userId` or `email` is present. -/
theorem c8_verify_success_amended (env : JwtEnv) (secret : String) (now : Nat)
    (req : Req) (tok : String) (d : DecodedJwt)
    (ht : tokenFromReq req = some tok)
    (hd : env.decode tok = some d)
    (hsec : d.signedWith = secret)
    (hexp : ∀ e, d.exp = some e → now < e) :
    verifyToken env secret now req =
      Except.ok { req with
        user := some d.claims,
        headers := setH (setH req.headers "x-user-id" d.claims.userId)
                        "x-user-email" d.claims.email } := by
  have hj : jwtVerify env secret now tok = some d.claims := by
    cases he : d.exp with
    | none => simp [jwtVerify, hd, hsec, he]
    | some e => simp [jwtVerify, hd, hsec, he, hexp e he]
  have hv : validationOutcome env secret now (authHeaderOf req) =
      VOutcome.valid d.claims := by
    have ht' : tokenOfHeader (authHeaderOf req) = some tok := ht
    simp [validationOutcome, ht', hj]
  exact verifyToken_valid env secret now req d.claims hv

/-- Closed instance of the amended C8 on `tokD`, whose payload lacks
`userId`. -/
theorem c8_verify_success_amended_witness :
    verifyToken demoEnv "SECRET" 10
      ⟨"GET", "/api/users/me", "", [("authorization", some "Bearer tokD")], none, none⟩ =
    Except.ok
      ⟨"GET", "/api/users/me", "",
       [("authorization", some "Bearer tokD"), ("x-user-id", none),
        ("x-user-email", some "e4@x")],
       some ⟨none, some "e4@x"⟩, none⟩ :=
  c8_verify_success_amended demoEnv "SECRET" 10
    ⟨"GET", "/api/users/me", "", [("authorization", some "Bearer tokD")], none, none⟩
    "tokD" ⟨⟨none, some "e4@x"⟩, "SECRET", none⟩
    (by decide) (by decide) (by decide) (fun e he => nomatch he)

/-- C9: the scheme word of the Authorization header is never inspected: for
any space-free scheme word, the extracted token and the whole validation
outcome coincide with those of the same token sent as `Bearer`; the token
is always the second space-separated field. -/
theorem c9_scheme_ignored (env : JwtEnv) (secret : String) (now : Nat)
    (sw tok : String) (hsw : ' ' ∉ sw.toList) :
    tokenOfHeader (some (sw ++ " " ++ tok)) =
      tokenOfHeader (some ("Bearer " ++ tok)) ∧
    validationOutcome env secret now (some (sw ++ " " ++ tok)) =
      validationOutcome env secret now (some ("Bearer " ++ tok)) := by
  have hB : ("Bearer " ++ tok) = "Bearer" ++ " " ++ tok := by
    have h0 : "Bearer " = "Bearer" ++ " " := by decide
    rw [h0]
  have he : tokenOfHeader (some (sw ++ " " ++ tok)) =
      tokenOfHeader (some ("Bearer " ++ tok)) := by
    rw [hB]
    show tokenOfVal (sw ++ " " ++ tok) = tokenOfVal ("Bearer" ++ " " ++ tok)
    exact tokenOfVal_scheme sw "Bearer" tok hsw (by decide)
  refine ⟨he, ?_⟩
  unfold validationOutcome
  rw [he]

/-- Closed instance of C9 with scheme word `Token`. -/
theorem c9_scheme_ignored_witness :
    tokenOfHeader (some ("Token" ++ " " ++ "tokC")) =
      tokenOfHeader (some ("Bearer " ++ "tokC")) ∧
    validationOutcome demoEnv "SECRET" 10 (some ("Token" ++ " " ++ "tokC")) =
      validationOutcome demoEnv "SECRET" 10 (some ("Bearer " ++ "tokC")) :=
  c9_scheme_ignored demoEnv "SECRET" 10 "Token" "tokC" (by decide)

/-- C10: whenever verifyToken fails on a protected route, the failure is one
of the two fixed error responses (401 missing token / 403 invalid token),
the gateway emits exactly that one response, and no later pipeline stage
runs: nothing is forwarded, and by the shape of `verifyToken` the error
branches return before any header mutation or `req.user` attachment, so no
modified request even exists. -/
theorem c10_failed_auth_no_forward (env : JwtEnv) (secret : String)
    (now : Nat) (nowIso : String) (up : Service → Bool) (req : Req)
    (r : RouteEntry) (e : Nat × Body)
    (hr : findRoute req.path = some r) (hp : r.requiresAuth = true)
    (hfail : verifyToken env secret now req = Except.error e) :
    (e = (401, errBody "No token provided") ∨
     e = (403, errBody "Invalid or expired token")) ∧
    gateway env secret now nowIso up req = Outcome.respond e.1 e.2 ∧
    ∀ svc fr, gateway env secret now nowIso up req ≠ Outcome.forwarded svc fr := by
  have hclass : e = (401, errBody "No token provided") ∨
      e = (403, errBody "Invalid or expired token") := by
    unfold verifyToken at hfail
    cases hv : validationOutcome env secret now (authHeaderOf req) with
    | missing =>
      rw [hv] at hfail
      exact Or.inl (Except.error.inj hfail).symm
    | invalid =>
      rw [hv] at hfail
      exact Or.inr (Except.error.inj hfail).symm
    | valid c =>
      rw [hv] at hfail
      exact Except.noConfusion hfail
  have hmain : gateway env secret now nowIso up req = Outcome.respond e.1 e.2 := by
    rw [gateway_route_eq env secret now nowIso up req r hr,
        handleRoute_protected env secret now up r req hp, hfail]
  refine ⟨hclass, hmain, ?_⟩
  intro svc fr hcon
  rw [hmain] at hcon
  exact Outcome.noConfusion hcon

/-- Closed instance of C10: a tokenless request to `/api/messages` yields
the single 401 response. -/
theorem c10_failed_auth_no_forward_witness :
    ((401, errBody "No token provided") = ((401, errBody "No token provided") : Nat × Body) ∨
     (401, errBody "No token provided") = ((403, errBody "Invalid or expired token") : Nat × Body)) ∧
    gateway demoEnv "SECRET" 10 "ts" (fun _ => true)
      ⟨"GET", "/api/messages", "", [], none, none⟩ =
    Outcome.respond 401 (errBody "No token provided") :=
  ⟨(c10_failed_auth_no_forward demoEnv "SECRET" 10 "ts" (fun _ => true)
      ⟨"GET", "/api/messages", "", [], none, none⟩
      ⟨"/api/messages", Service.message, true, none⟩
      (401, errBody "No token provided")
      (by decide) (by decide) rfl).1,
   (c10_failed_auth_no_forward demoEnv "SECRET" 10 "ts" (fun _ => true)
      ⟨"GET", "/api/messages", "", [], none, none⟩
      ⟨"/api/messages", Service.message, true, none⟩
      (401, errBody "No token provided")
      (by decide) (by decide) rfl).2.1⟩

end ReacherGateway
